import Mathlib

/-!
Resource manager of PRPViewer (`src/resources/ResourcesManager.cpp`).

A shallow embedding of the `Resources` class: the file-name index built by
`parseDirectory` / `parseArchive`, the path utilities (`getImagePath`,
`getCubemapPaths`), the text reader `getString` and the three caches
(`_textures`, `_meshes`, `_programs`) with their getters, registration
functions and `reset`.

The object state is passed explicitly.  The collaborators that live outside
`ResourcesManager.cpp` (disk reads, the OBJ parser, the GPU upload
primitives, the `ProgramInfos` constructor) are fields of the structure
`GLUtilities`; every invocation of one of them is appended to the field
`calls` of the state, so that "nothing was loaded" is the statement that
`calls` did not change.
-/

namespace PRPViewer

/-! ## `std::map<std::string, T>` -/

/-- Order of `std::string` keys: lexicographic on the character codes. -/
def keyLess : List Char → List Char → Bool
  | _, [] => false
  | [], _ :: _ => true
  | a :: as, b :: bs =>
    if a.toNat < b.toNat then true
    else if b.toNat < a.toNat then false
    else keyLess as bs

/-- A `std::map<std::string, T>`: the entries, in the order of iteration. -/
abbrev StdMap (α : Type) := List (String × α)

namespace StdMap

/-- The member `count(key)`: 1 when the key is present, 0 otherwise. -/
def count {α : Type} : StdMap α → String → Nat
  | [], _ => 0
  | (k, _) :: rest, key => if k = key then 1 else count rest key

/-- The member `find(key)`, as an option. -/
def find {α : Type} : StdMap α → String → Option α
  | [], _ => none
  | (k, v) :: rest, key => if k = key then some v else find rest key

/-- Reading `m[key]`.  Every read in the source is guarded by `count(key) > 0`
or follows an insertion of `key`, so the branch of `operator[]` that inserts
a default value is never taken; it is rendered as the default value. -/
def get {α : Type} [Inhabited α] (m : StdMap α) (key : String) : α :=
  match find m key with
  | some v => v
  | none => default

/-- The assignment `m[key] = value`: replaces the value of an existing key,
otherwise inserts the entry at its place in key order. -/
def assign {α : Type} : StdMap α → String → α → StdMap α
  | [], key, value => [(key, value)]
  | (k, v) :: rest, key, value =>
    if k = key then (key, value) :: rest
    else if keyLess key.data k.data then (key, value) :: (k, v) :: rest
    else (k, v) :: assign rest key value

/-- The member `emplace(key, value)`: inserts only when the key is absent. -/
def emplace {α : Type} (m : StdMap α) (key : String) (value : α) : StdMap α :=
  if count m key > 0 then m else assign m key value

end StdMap

/-! ## Handles and asset data -/

/-- Modelled from the spec: the declaration of `TextureInfos` is in a header
that is not part of the sources.  "Opaque GPU texture identifier plus format
metadata (dimensions, channel layout, mipmap count)"; the source reads the
field `id`. -/
structure TextureInfos where
  id : Nat
  width : Nat
  height : Nat
  channels : Nat
  mipmap : Nat
deriving DecidableEq

/-- The default-constructed `TextureInfos`. -/
instance : Inhabited TextureInfos := ⟨⟨0, 0, 0, 0, 0⟩⟩

/-- A 32-bit `float`, by its bit pattern (0 is `0.0f`).  The arithmetic of
floats is not part of the embedding: the operations the source applies to
them are fields of `GLUtilities`. -/
structure float where
  bits : Nat
deriving DecidableEq

/-- The value `0.0f`. -/
instance : OfNat float 0 := ⟨⟨0⟩⟩

/-- A `glm::vec3`. -/
structure vec3 where
  x : float
  y : float
  z : float
deriving DecidableEq

/-- The geometry of `Mesh`, with the members the source assigns. -/
structure Mesh where
  indices : List Nat
  positions : List vec3
  normals : List vec3
  colors : List (Nat × Nat × Nat × Nat)
  texcoords : List (List vec3)
deriving DecidableEq

/-- Modelled from the spec: the declaration of `MeshInfos` is in a header
that is not part of the sources.  "Opaque GPU buffer identifiers (vertex
array id, element buffer id, index count) plus derived geometry metadata
(bounding box, centroid)". -/
structure MeshInfos where
  vId : Nat
  eId : Nat
  count : Nat
  bboxMin : vec3
  bboxMax : vec3
  centroid : vec3
deriving DecidableEq

/-- The default-constructed `MeshInfos`. -/
instance : Inhabited MeshInfos := ⟨⟨0, 0, 0, ⟨0, 0, 0⟩, ⟨0, 0, 0⟩, ⟨0, 0, 0⟩⟩⟩

/-- A `std::shared_ptr<ProgramInfos>`: the address of the object (0 for the
null pointer) with the two strings it was constructed from.  Two handles are
the same object exactly when they are equal. -/
structure ProgramInfos where
  address : Nat
  vertex : String
  fragment : String
deriving DecidableEq

/-- The null `std::shared_ptr<ProgramInfos>`. -/
instance : Inhabited ProgramInfos := ⟨⟨0, "", ""⟩⟩

/-- In-memory texture data (`plMipmap`, `plCubicEnvironmap`), as raw bytes. -/
structure plMipmap where
  bytes : List Nat
deriving DecidableEq

/-- An invocation of a collaborator outside `ResourcesManager.cpp`. -/
inductive Call where
  | getRawData (path : String)
  | loadObj (text : String)
  | setupBuffers (mesh : Mesh)
  | loadTexture (paths : List String) (srgb : Bool)
  | loadTextureCubemap (paths : List (List String)) (srgb : Bool)
  | loadTextureData (data : plMipmap)
  | loadCubemapData (data : plMipmap)
  | newProgramInfos (vertex fragment : String) (fromContent : Bool)
  | glDeleteTextures (id : Nat)
  | glDeleteVertexArrays (vId : Nat)
deriving DecidableEq

/-- The collaborators of the resource manager.  What a GPU primitive returns
may depend on the calls made before it (`List Call`), as the names handed out
by the driver do. `getTextureDefaultSrgb` is the default argument of the
parameter `srgb` of `getTexture`, declared in the header.  The last three
fields are the float operations of `registerMesh`: `boundingBox first
positions` is the box `BoundingBox(positions[0], positions[0])` extended with
`+=` by each position and completed by `updateValues()`, as its two corners;
`vec3Add` is `+=` and `vec3Div` is `/=` by a size, on `glm::vec3`. -/
structure GLUtilities where
  disk : String → Option String
  loadObj : String → Mesh
  computeTangentsAndBinormals : Mesh → Mesh
  setupBuffers : List Call → Mesh → MeshInfos
  loadTexture : List Call → List String → Bool → TextureInfos
  loadTextureCubemap : List Call → List (List String) → Bool → TextureInfos
  loadTextureData : List Call → plMipmap → TextureInfos
  loadCubemapData : List Call → plMipmap → TextureInfos
  newProgramInfos : List Call → String → String → Bool → ProgramInfos
  getTextureDefaultSrgb : Bool
  boundingBox : vec3 → List vec3 → vec3 × vec3
  vec3Add : vec3 → vec3 → vec3
  vec3Div : vec3 → Nat → vec3

/-- The state of the `Resources` object, with the record of the calls made to
the collaborators and of the lines written to the log. -/
structure Resources where
  _rootPath : String
  _files : StdMap String
  _textures : StdMap TextureInfos
  _meshes : StdMap MeshInfos
  _programs : StdMap ProgramInfos
  calls : List Call
  log : List String
deriving DecidableEq

/-- The number of values of an `unsigned int`. -/
def UINT_RANGE : Nat := 4294967296

namespace Resources

/-! ## Building the index -/

/-- A line of the log. -/
def alreadyExists (fileNameWithExt : String) : String :=
  "Error: asset named \"" ++ fileNameWithExt ++ "\" alread exists."

/-- The treatment of one regular file, common to `parseDirectory`
(lines 96-108) and `parseArchive` (lines 58-66): empty names and names that
start with a dot are skipped, a name that is already a key is reported and
not stored again. -/
def indexFile (r : Resources) (fileNameWithExt path : String) : Resources :=
  match fileNameWithExt.data with
  | [] => r
  | c :: _ =>
    if c ≠ '.' then
      if StdMap.count r._files fileNameWithExt = 0 then
        { r with _files := StdMap.assign r._files fileNameWithExt path }
      else
        { r with log := r.log ++ [alreadyExists fileNameWithExt] }
    else r

/-- What `tinydir` reports for an entry of a directory: a read error, a
subdirectory with its own entries, or a regular file. -/
inductive DirEntry where
  | readError : DirEntry
  | dir (name : String) (entries : List DirEntry) : DirEntry
  | file (name : String) : DirEntry

mutual
/-- The body of the loop of `parseDirectory` for one entry. -/
def parseEntry (r : Resources) (directoryPath : String) : DirEntry → Resources
  | .readError =>
    { r with log := r.log ++
        ["Error getting file in directory \"" ++ directoryPath ++ "\""] }
  | .dir dirName entries =>
    if dirName.length > 0 ∧ dirName ≠ "." ∧ dirName ≠ ".." then
      parseDirectory r (directoryPath ++ "/" ++ dirName) entries
    else r
  | .file fileNameWithExt =>
    indexFile r fileNameWithExt (directoryPath ++ "/" ++ fileNameWithExt)
/-- The function `parseDirectory`, on the entries of the directory opened at
`directoryPath` (`dir.path` is the path the directory was opened with). -/
def parseDirectory (r : Resources) (directoryPath : String) :
    List DirEntry → Resources
  | [] => r
  | e :: rest => parseDirectory (parseEntry r directoryPath e) directoryPath rest
end

/-- An entry of the archive whose `file_stat` could be read. -/
structure ArchiveEntry where
  m_filename : String
  is_directory : Bool

/-- The part of a path after the last `/` or `\`, the whole path when it has
none: `filePath.substr(filePath.find_last_of("/\\") + 1)`. -/
def afterLastSeparator : List Char → List Char
  | [] => []
  | c :: cs =>
    if cs.any (fun d => d = '/' ∨ d = '\\') then afterLastSeparator cs
    else if c = '/' ∨ c = '\\' then cs
    else c :: cs

/-- The loop of `parseArchive` over the entries of an opened archive. -/
def parseArchive (r : Resources) : List ArchiveEntry → Resources
  | [] => r
  | e :: rest =>
    if e.is_directory then parseArchive r rest
    else
      let filePath := e.m_filename
      let fileNameWithExt := String.mk (afterLastSeparator filePath.data)
      parseArchive (indexFile r fileNameWithExt filePath) rest

/-- Scanning a sequence of regular files given as (bare name, path). -/
def scanFiles (r : Resources) : List (String × String) → Resources
  | [] => r
  | f :: rest => scanFiles (indexFile r f.1 f.2) rest

/-! ## Image path utilities -/

/-- The function `getImagePath`. -/
def getImagePath (r : Resources) (name : String) : String :=
  if StdMap.count r._files (name ++ ".png") > 0 then
    StdMap.get r._files (name ++ ".png")
  else if StdMap.count r._files (name ++ ".jpg") > 0 then
    StdMap.get r._files (name ++ ".jpg")
  else if StdMap.count r._files (name ++ ".jpeg") > 0 then
    StdMap.get r._files (name ++ ".jpeg")
  else if StdMap.count r._files (name ++ ".bmp") > 0 then
    StdMap.get r._files (name ++ ".bmp")
  else if StdMap.count r._files (name ++ ".tga") > 0 then
    StdMap.get r._files (name ++ ".tga")
  else if StdMap.count r._files (name ++ ".exr") > 0 then
    StdMap.get r._files (name ++ ".exr")
  else ""

/-- The loop of `getCubemapPaths` over the face names still to resolve. -/
def cubemapFaces (r : Resources) : List String → List String → List String
  | [], paths => paths
  | faceName :: rest, paths =>
    let filePath := getImagePath r faceName
    if filePath = "" then []
    else cubemapFaces r rest (paths ++ [filePath])

/-- The function `getCubemapPaths`. -/
def getCubemapPaths (r : Resources) (name : String) : List String :=
  let names := [name ++ "_px", name ++ "_nx", name ++ "_py", name ++ "_ny",
    name ++ "_pz", name ++ "_nz"]
  cubemapFaces r names []

/-! ## Text files -/

/-- The function `getRawData` followed by the construction of the content
string (lines 196-199).  A file that cannot be opened is reported and gives
no bytes. -/
def readContent (gl : GLUtilities) (r : Resources) (path : String) :
    String × Resources :=
  let r1 := { r with calls := r.calls ++ [Call.getRawData path] }
  match gl.disk path with
  | some content => (content, r1)
  | none =>
    ("", { r1 with log := r1.log ++
      ["Unable to load file at path \"" ++ path ++ "\"."] })

/-- The function `getString`. -/
def getString (gl : GLUtilities) (r : Resources) (filename : String) :
    String × Resources :=
  if StdMap.count r._files filename > 0 then
    readContent gl r (StdMap.get r._files filename)
  else if StdMap.count r._files (filename ++ ".txt") > 0 then
    readContent gl r (StdMap.get r._files (filename ++ ".txt"))
  else
    ("", { r with log := r.log ++
      ["Unable to find text file named \"" ++ filename ++ "\"."] })

/-! ## Meshes -/

/-- The function `getMesh`. -/
def getMesh (gl : GLUtilities) (r : Resources) (name : String) :
    MeshInfos × Resources :=
  if StdMap.count r._meshes name > 0 then
    (StdMap.get r._meshes name, r)
  else
    let (meshText, r1) := getString gl r (name ++ ".obj")
    if meshText ≠ "" then
      let mesh := gl.computeTangentsAndBinormals (gl.loadObj meshText)
      let r2 := { r1 with calls := r1.calls ++ [Call.loadObj meshText] }
      let infos := gl.setupBuffers r2.calls mesh
      (infos, { r2 with
        calls := r2.calls ++ [Call.setupBuffers mesh]
        _meshes := StdMap.assign r2._meshes name infos })
    else
      (default, { r1 with log := r1.log ++
        ["Unable to load mesh named " ++ name ++ "."] })

/-- The function `registerMesh`.  The centroid is set to zero; when there
are positions, the bounding box is built from the first position and extended
by every position, and the centroid is the sum of the positions divided by
their number, all in float arithmetic. -/
def registerMesh (gl : GLUtilities) (r : Resources) (name : String)
    (indices : List Nat) (positions normals : List vec3)
    (colors : List (Nat × Nat × Nat × Nat)) (texcoords : List (List vec3)) :
    MeshInfos × Resources :=
  let mesh : Mesh := ⟨indices, positions, normals, colors, texcoords⟩
  let uploaded := gl.setupBuffers r.calls mesh
  let infos : MeshInfos :=
    match positions with
    | [] => { uploaded with centroid := ⟨0, 0, 0⟩ }
    | first :: _ =>
      let bbox := gl.boundingBox first positions
      let sum := positions.foldl gl.vec3Add (⟨0, 0, 0⟩ : vec3)
      { uploaded with
        bboxMin := bbox.1
        bboxMax := bbox.2
        centroid := gl.vec3Div sum positions.length }
  (infos, { r with
    calls := r.calls ++ [Call.setupBuffers mesh]
    _meshes := StdMap.assign r._meshes name infos })

/-! ## Textures -/

/-- The `while` loop of `getTexture` (lines 289-295), entered with the level
counter `lastMipmap` and the paths gathered so far.  The first argument is
the number of values the 32-bit counter can still take before it wraps: when
it reaches 0 every level from 0 to `UINT_RANGE - 1` resolves and the loop of
the source never exits, which is the result `none`. -/
def mipmapLevels (r : Resources) (name : String) :
    Nat → Nat → List String → Option (List String)
  | 0, _, _ => none
  | n + 1, lastMipmap, paths =>
    let mipmapPath := getImagePath r (name ++ "_" ++ toString lastMipmap)
    if mipmapPath ≠ "" then
      mipmapLevels r name n (lastMipmap + 1) (paths ++ [mipmapPath])
    else some paths

/-- The call `GLUtilities::loadTexture(paths, srgb)` followed by
`_textures[name] = infos`. -/
def storeTexture (gl : GLUtilities) (r : Resources) (name : String)
    (paths : List String) (srgb : Bool) : TextureInfos × Resources :=
  let infos := gl.loadTexture r.calls paths srgb
  (infos, { r with
    calls := r.calls ++ [Call.loadTexture paths srgb]
    _textures := StdMap.assign r._textures name infos })

/-- The function `getTexture`.  The first argument bounds the depth of the
recursive calls `getTexture("DEBUG_DEFAULT")`; `none` is a call that has not
returned within that depth (or whose loop never exits). -/
def getTexture (gl : GLUtilities) :
    Nat → Resources → String → Bool → Option (TextureInfos × Resources)
  | 0, _, _, _ => none
  | depth + 1, r, name, srgb =>
    if StdMap.count r._textures name > 0 then
      some (StdMap.get r._textures name, r)
    else
      let path := getImagePath r name
      if path ≠ "" then
        some (storeTexture gl r name [path] srgb)
      else
        match mipmapLevels r name UINT_RANGE 0 [] with
        | none => none
        | some paths =>
          if paths ≠ [] then
            some (storeTexture gl r name paths srgb)
          else
            getTexture gl depth r "DEBUG_DEFAULT" gl.getTextureDefaultSrgb

/-- The function `registerTexture`. -/
def registerTexture (gl : GLUtilities) (r : Resources) (name : String)
    (textureData : plMipmap) : TextureInfos × Resources :=
  let infos := gl.loadTextureData r.calls textureData
  (infos, { r with
    calls := r.calls ++ [Call.loadTextureData textureData]
    _textures := StdMap.assign r._textures name infos })

/-- The function `registerCubemap`. -/
def registerCubemap (gl : GLUtilities) (r : Resources) (name : String)
    (textureData : plMipmap) : TextureInfos × Resources :=
  let infos := gl.loadCubemapData r.calls textureData
  (infos, { r with
    calls := r.calls ++ [Call.loadCubemapData textureData]
    _textures := StdMap.assign r._textures name infos })

/-- The function `reset`: one `glDeleteTextures` per cached texture, one
`glDeleteVertexArrays` per cached mesh, then the two maps are cleared. -/
def reset (r : Resources) : Resources :=
  { r with
    calls := r.calls
      ++ r._textures.map (fun tex => Call.glDeleteTextures tex.2.id)
      ++ r._meshes.map (fun mesh => Call.glDeleteVertexArrays mesh.2.vId)
    _textures := []
    _meshes := [] }

/-- The `while` loop of `getCubemap` (lines 357-363); the first argument is
as in `mipmapLevels`. -/
def cubemapLevels (r : Resources) (name : String) :
    Nat → Nat → List (List String) → Option (List (List String))
  | 0, _, _ => none
  | n + 1, lastMipmap, allPaths =>
    let mipmapPaths := getCubemapPaths r (name ++ "_" ++ toString lastMipmap)
    if mipmapPaths ≠ [] then
      cubemapLevels r name n (lastMipmap + 1) (allPaths ++ [mipmapPaths])
    else some allPaths

/-- The call `GLUtilities::loadTextureCubemap(paths, srgb)` followed by
`_textures[name] = infos`. -/
def storeCubemap (gl : GLUtilities) (r : Resources) (name : String)
    (paths : List (List String)) (srgb : Bool) : TextureInfos × Resources :=
  let infos := gl.loadTextureCubemap r.calls paths srgb
  (infos, { r with
    calls := r.calls ++ [Call.loadTextureCubemap paths srgb]
    _textures := StdMap.assign r._textures name infos })

/-- The function `getCubemap`; `none` when its loop never exits. -/
def getCubemap (gl : GLUtilities) (r : Resources) (name : String)
    (srgb : Bool) : Option (TextureInfos × Resources) :=
  if StdMap.count r._textures name > 0 then
    some (StdMap.get r._textures name, r)
  else
    let paths := getCubemapPaths r name
    if paths ≠ [] then
      some (storeCubemap gl r name [paths] srgb)
    else
      match cubemapLevels r name UINT_RANGE 0 [] with
      | none => none
      | some allPaths =>
        if allPaths ≠ [] then
          some (storeCubemap gl r name allPaths srgb)
        else
          some (default, { r with log := r.log ++
            ["Unable to find cubemap named \"" ++ name ++ "\"."] })

/-! ## Programs -/

/-- The three-argument function `getProgram`. -/
def getProgram (gl : GLUtilities) (r : Resources)
    (name vertexName fragmentName : String) : ProgramInfos × Resources :=
  if StdMap.count r._programs name > 0 then
    (StdMap.get r._programs name, r)
  else
    let program := gl.newProgramInfos r.calls vertexName fragmentName false
    let r1 := { r with
      calls := r.calls ++ [Call.newProgramInfos vertexName fragmentName false]
      _programs := StdMap.emplace r._programs name program }
    (StdMap.get r1._programs name, r1)

/-- The one-argument function `getProgram`. -/
def getProgramByName (gl : GLUtilities) (r : Resources) (name : String) :
    ProgramInfos × Resources :=
  getProgram gl r name name name

/-- The function `registerProgram`. -/
def registerProgram (gl : GLUtilities) (r : Resources)
    (name vertexContent fragmentContent : String) : ProgramInfos × Resources :=
  if StdMap.count r._programs name > 0 then
    (StdMap.get r._programs name, r)
  else
    let program := gl.newProgramInfos r.calls vertexContent fragmentContent true
    let r1 := { r with
      calls := r.calls ++
        [Call.newProgramInfos vertexContent fragmentContent true]
      _programs := StdMap.emplace r._programs name program }
    (StdMap.get r1._programs name, r1)

end Resources

/-! ## Concrete data for the examples -/

/-- A driver that hands out the names 1, 2, 3, ... in the order of the
calls, and a disk that holds the single file `res/readme.txt`; the float
operations are placeholders, no example has positions. -/
def exampleGL : GLUtilities where
  disk := fun path => if path = "res/readme.txt" then some "hello" else none
  loadObj := fun _ => ⟨[], [], [], [], []⟩
  computeTangentsAndBinormals := fun mesh => mesh
  setupBuffers := fun calls _ =>
    ⟨calls.length + 1, calls.length + 1, 0, ⟨0, 0, 0⟩, ⟨0, 0, 0⟩, ⟨0, 0, 0⟩⟩
  loadTexture := fun calls paths _ => ⟨calls.length + 1, 0, 0, 0, paths.length⟩
  loadTextureCubemap := fun calls paths _ =>
    ⟨calls.length + 1, 0, 0, 0, paths.length⟩
  loadTextureData := fun calls _ => ⟨calls.length + 1, 0, 0, 0, 1⟩
  loadCubemapData := fun calls _ => ⟨calls.length + 1, 0, 0, 0, 1⟩
  newProgramInfos := fun calls vertex fragment _ =>
    ⟨calls.length + 1, vertex, fragment⟩
  getTextureDefaultSrgb := true
  boundingBox := fun first _ => (first, first)
  vec3Add := fun sum _ => sum
  vec3Div := fun sum _ => sum

/-- A `Resources` object with the given index and empty caches. -/
def withFiles (files : StdMap String) : Resources :=
  ⟨"../../resources", files, [], [], [], [], []⟩

/-- The six image extensions, in the order `getImagePath` tries them. -/
def imageExtensions : List String :=
  [".png", ".jpg", ".jpeg", ".bmp", ".tga", ".exr"]

/-- The six face names of a cubemap, in the order `getCubemapPaths` tries
them. -/
def faceNames (name : String) : List String :=
  [name ++ "_px", name ++ "_nx", name ++ "_py", name ++ "_ny",
    name ++ "_pz", name ++ "_nz"]

/-- An index with two formats of the image `wall`. -/
def wallIndex : StdMap String :=
  [("wall.jpg", "res/a/wall.jpg"), ("wall.png", "res/b/wall.png")]

/-- An index with the six faces of the cubemap `sky`. -/
def skyIndex : StdMap String :=
  [("sky_nx.png", "res/sky_nx.png"), ("sky_ny.png", "res/sky_ny.png"),
   ("sky_nz.png", "res/sky_nz.png"), ("sky_px.png", "res/sky_px.png"),
   ("sky_py.png", "res/sky_py.png"), ("sky_pz.png", "res/sky_pz.png")]

/-- The index `skyIndex` without the face `sky_py`. -/
def skyIndexFive : StdMap String :=
  [("sky_nx.png", "res/sky_nx.png"), ("sky_ny.png", "res/sky_ny.png"),
   ("sky_nz.png", "res/sky_nz.png"), ("sky_px.png", "res/sky_px.png"),
   ("sky_pz.png", "res/sky_pz.png")]

/-- An index with the mipmap levels 0, 1 and 3 of `tex`, and no level 2. -/
def texIndex : StdMap String :=
  [("tex_0.png", "res/tex_0.png"), ("tex_1.png", "res/tex_1.png"),
   ("tex_3.png", "res/tex_3.png")]

/-- An index whose only image is the default texture. -/
def defaultIndex : StdMap String :=
  [("DEBUG_DEFAULT.png", "res/DEBUG_DEFAULT.png")]

/-- The state reached from `withFiles wallIndex` by loading the texture
`wall`: the handle 1 is cached under `wall`. -/
def wallCached : Resources :=
  { withFiles wallIndex with
    _textures := [("wall", ⟨1, 0, 0, 0, 1⟩)]
    calls := [Call.loadTexture ["res/b/wall.png"] false] }

/-- The state reached from `withFiles defaultIndex` by loading the default
texture: the handle 1 is cached under `DEBUG_DEFAULT`. -/
def defaultCached : Resources :=
  { withFiles defaultIndex with
    _textures := [("DEBUG_DEFAULT", ⟨1, 0, 0, 0, 1⟩)]
    calls := [Call.loadTexture ["res/DEBUG_DEFAULT.png"] true] }

/-- A bare name that the scan stores: not empty, not starting with a dot. -/
def indexable (name : String) : Bool :=
  match name.data with
  | [] => false
  | c :: _ => decide (c ≠ '.')

/-- The regular files of an archive as (bare name, path), in scan order. -/
def archiveFiles : List Resources.ArchiveEntry → List (String × String)
  | [] => []
  | e :: rest =>
    if e.is_directory then archiveFiles rest
    else (String.mk (Resources.afterLastSeparator e.m_filename.data),
      e.m_filename) :: archiveFiles rest

mutual
/-- The regular files below one entry of a directory, as (bare name, path),
in the order `parseDirectory` visits them. -/
def entryFiles (directoryPath : String) :
    Resources.DirEntry → List (String × String)
  | .readError => []
  | .dir dirName entries =>
    if dirName.length > 0 ∧ dirName ≠ "." ∧ dirName ≠ ".." then
      directoryFiles (directoryPath ++ "/" ++ dirName) entries
    else []
  | .file fileNameWithExt =>
    [(fileNameWithExt, directoryPath ++ "/" ++ fileNameWithExt)]
/-- The regular files below a directory, as (bare name, path), in the order
`parseDirectory` visits them. -/
def directoryFiles (directoryPath : String) :
    List Resources.DirEntry → List (String × String)
  | [] => []
  | e :: rest =>
    entryFiles directoryPath e ++ directoryFiles directoryPath rest
end

/-- A tree with two files named `foo.png`, a hidden file and a file in a
subdirectory. -/
def exampleTree : List Resources.DirEntry :=
  [.file "foo.png", .file ".hidden",
   .dir "sub" [.file "foo.png", .file "bar.obj"]]

/-- A state with one texture, one mesh and one program in the caches. -/
def stocked : Resources :=
  { withFiles wallIndex with
    _textures := [("wall", ⟨1, 0, 0, 0, 1⟩)]
    _meshes := [("sphere", ⟨2, 2, 0, ⟨0, 0, 0⟩, ⟨0, 0, 0⟩, ⟨0, 0, 0⟩⟩)]
    _programs := [("object_basic", ⟨3, "object_basic", "object_basic"⟩)] }

/-- An index with the text file `readme.txt`. -/
def readmeIndex : StdMap String :=
  [("readme.txt", "res/readme.txt")]

namespace StdMap

theorem count_eq_zero_iff {α : Type} (m : StdMap α) (key : String) :
    count m key = 0 ↔ find m key = none := by
  induction m with
  | nil => simp [count, find]
  | cons e rest ih =>
    obtain ⟨k, v⟩ := e
    by_cases h : k = key <;> simp [count, find, h, ih]

theorem count_pos_iff {α : Type} (m : StdMap α) (key : String) :
    0 < count m key ↔ ∃ v, find m key = some v := by
  induction m with
  | nil => simp [count, find]
  | cons e rest ih =>
    obtain ⟨k, v⟩ := e
    by_cases h : k = key <;> simp [count, find, h, ih]

theorem find_assign_self {α : Type} (m : StdMap α) (key : String) (value : α) :
    find (assign m key value) key = some value := by
  induction m with
  | nil => simp [assign, find]
  | cons e rest ih =>
    obtain ⟨k, v⟩ := e
    by_cases h : k = key
    · simp [assign, find, h]
    · by_cases hl : keyLess key.data k.data = true
      · simp [assign, find, h, hl]
      · simp [assign, find, h, hl, ih]

theorem find_assign_ne {α : Type} (m : StdMap α) (key other : String)
    (value : α) (hne : other ≠ key) :
    find (assign m key value) other = find m other := by
  have hne2 : ¬ key = other := fun h => hne h.symm
  induction m with
  | nil => simp [assign, find, hne2]
  | cons e rest ih =>
    obtain ⟨k, v⟩ := e
    by_cases h : k = key
    · subst h
      simp [assign, find, hne2]
    · by_cases hl : keyLess key.data k.data = true
      · simp [assign, find, h, hl, hne2]
      · by_cases hk : k = other
        · subst hk
          simp [assign, find, h, hl]
        · simp [assign, find, h, hl, hk, ih]

theorem count_assign_self {α : Type} (m : StdMap α) (key : String) (value : α) :
    0 < count (assign m key value) key :=
  (count_pos_iff _ _).2 ⟨value, find_assign_self m key value⟩

theorem get_assign_self {α : Type} [Inhabited α] (m : StdMap α) (key : String)
    (value : α) : get (assign m key value) key = value := by
  simp [get, find_assign_self]

theorem get_congr {α : Type} [Inhabited α] (m m' : StdMap α) (key : String)
    (h : find m' key = find m key) : get m' key = get m key := by
  simp [get, h]

end StdMap

open Resources

/-! ## Path utilities -/

theorem getImagePath_files (r r' : Resources) (h : r'._files = r._files)
    (name : String) : getImagePath r' name = getImagePath r name := by
  simp [getImagePath, h]

theorem get_ne_empty_of_count_pos (files : StdMap String)
    (hpaths : ∀ key, StdMap.find files key ≠ some "") (key : String)
    (hpos : 0 < StdMap.count files key) : StdMap.get files key ≠ "" := by
  obtain ⟨v, hv⟩ := (StdMap.count_pos_iff files key).1 hpos
  have hne := hpaths key
  rw [hv] at hne
  simp only [StdMap.get, hv]
  intro h
  exact hne (by rw [h])

/-- C2: `getImagePath(name)` is the indexed path of `name + ext` for the first
extension, in the order .png, .jpg, .jpeg, .bmp, .tga, .exr, whose key is in
the index, and the empty string when there is none; when no indexed path is
empty, the result is empty exactly when none of the six keys is present; when
both `name.png` and `name.jpg` are indexed the .png path is returned. -/
theorem getImagePath_first_extension (r : Resources) (name : String) :
    getImagePath r name =
      (match imageExtensions.find?
          (fun ext => decide (0 < StdMap.count r._files (name ++ ext))) with
        | some ext => StdMap.get r._files (name ++ ext)
        | none => "")
    ∧ ((∀ key, StdMap.find r._files key ≠ some "") →
        (getImagePath r name = "" ↔
          ∀ ext ∈ imageExtensions, StdMap.count r._files (name ++ ext) = 0))
    ∧ (0 < StdMap.count r._files (name ++ ".png") →
        0 < StdMap.count r._files (name ++ ".jpg") →
        getImagePath r name = StdMap.get r._files (name ++ ".png")) := by
  refine ⟨?_, ?_, ?_⟩
  · simp only [getImagePath, imageExtensions, List.find?]
    by_cases h1 : 0 < StdMap.count r._files (name ++ ".png")
    · simp [h1]
    by_cases h2 : 0 < StdMap.count r._files (name ++ ".jpg")
    · simp [h1, h2]
    by_cases h3 : 0 < StdMap.count r._files (name ++ ".jpeg")
    · simp [h1, h2, h3]
    by_cases h4 : 0 < StdMap.count r._files (name ++ ".bmp")
    · simp [h1, h2, h3, h4]
    by_cases h5 : 0 < StdMap.count r._files (name ++ ".tga")
    · simp [h1, h2, h3, h4, h5]
    by_cases h6 : 0 < StdMap.count r._files (name ++ ".exr")
    · simp [h1, h2, h3, h4, h5, h6]
    · simp [h1, h2, h3, h4, h5, h6]
  · intro hpaths
    have hget := get_ne_empty_of_count_pos r._files hpaths
    simp only [getImagePath, imageExtensions, List.mem_cons, List.mem_singleton,
      List.mem_nil_iff, or_false, forall_eq_or_imp, forall_eq]
    by_cases h1 : 0 < StdMap.count r._files (name ++ ".png")
    · simp only [h1, if_true]
      exact ⟨fun h => absurd h (hget _ h1), fun h => absurd h.1 (by omega)⟩
    by_cases h2 : 0 < StdMap.count r._files (name ++ ".jpg")
    · simp only [h1, h2, if_true, if_false]
      exact ⟨fun h => absurd h (hget _ h2), fun h => absurd h.2.1 (by omega)⟩
    by_cases h3 : 0 < StdMap.count r._files (name ++ ".jpeg")
    · simp only [h1, h2, h3, if_true, if_false]
      exact ⟨fun h => absurd h (hget _ h3), fun h => absurd h.2.2.1 (by omega)⟩
    by_cases h4 : 0 < StdMap.count r._files (name ++ ".bmp")
    · simp only [h1, h2, h3, h4, if_true, if_false]
      exact ⟨fun h => absurd h (hget _ h4), fun h => absurd h.2.2.2.1 (by omega)⟩
    by_cases h5 : 0 < StdMap.count r._files (name ++ ".tga")
    · simp only [h1, h2, h3, h4, h5, if_true, if_false]
      exact ⟨fun h => absurd h (hget _ h5),
        fun h => absurd h.2.2.2.2.1 (by omega)⟩
    by_cases h6 : 0 < StdMap.count r._files (name ++ ".exr")
    · simp only [h1, h2, h3, h4, h5, h6, if_true, if_false]
      exact ⟨fun h => absurd h (hget _ h6),
        fun h => absurd h.2.2.2.2.2 (by omega)⟩
    · simp only [h1, h2, h3, h4, h5, h6, if_false, true_iff]
      omega
  · intro hpng _
    simp [getImagePath, hpng]

/-- In the index `wallIndex`, where no path is empty and `wall.png` and
`wall.jpg` are both keys, `getImagePath("wall")` is the path of `wall.png`;
and `getImagePath("floor")` is empty, none of its six keys being present. -/
theorem getImagePath_first_extension_witness :
    getImagePath (withFiles wallIndex) "wall" = "res/b/wall.png"
    ∧ (getImagePath (withFiles wallIndex) "floor" = "" ↔
        ∀ ext ∈ imageExtensions,
          StdMap.count (withFiles wallIndex)._files ("floor" ++ ext) = 0) :=
  ⟨((getImagePath_first_extension (withFiles wallIndex) "wall").2.2
      (by decide) (by decide)).trans (by decide),
   (getImagePath_first_extension (withFiles wallIndex) "floor").2.1
      (by
        intro key
        simp only [withFiles, wallIndex, StdMap.find]
        split_ifs <;> decide)⟩

theorem getCubemapPaths_files (r r' : Resources) (h : r'._files = r._files)
    (name : String) : getCubemapPaths r' name = getCubemapPaths r name := by
  simp [getCubemapPaths, cubemapFaces, getImagePath_files r r' h]

/-- C3: `getCubemapPaths(name)` is the empty list or a list of exactly six
paths; it is the list of the image paths of `name_px`, `name_nx`, `name_py`,
`name_ny`, `name_pz`, `name_nz`, in that order, when all six resolve, and the
empty list as soon as one of the six faces does not resolve, whatever the
other five do. -/
theorem getCubemapPaths_all_or_nothing (r : Resources) (name : String) :
    (getCubemapPaths r name = [] ∨ (getCubemapPaths r name).length = 6)
    ∧ ((∀ face ∈ faceNames name, getImagePath r face ≠ "") →
        getCubemapPaths r name = (faceNames name).map (getImagePath r))
    ∧ ((∃ face ∈ faceNames name, getImagePath r face = "") →
        getCubemapPaths r name = []) := by
  by_cases h1 : getImagePath r (name ++ "_px") = ""
  · simp [getCubemapPaths, cubemapFaces, faceNames, h1]
  by_cases h2 : getImagePath r (name ++ "_nx") = ""
  · simp [getCubemapPaths, cubemapFaces, faceNames, h1, h2]
  by_cases h3 : getImagePath r (name ++ "_py") = ""
  · simp [getCubemapPaths, cubemapFaces, faceNames, h1, h2, h3]
  by_cases h4 : getImagePath r (name ++ "_ny") = ""
  · simp [getCubemapPaths, cubemapFaces, faceNames, h1, h2, h3, h4]
  by_cases h5 : getImagePath r (name ++ "_pz") = ""
  · simp [getCubemapPaths, cubemapFaces, faceNames, h1, h2, h3, h4, h5]
  by_cases h6 : getImagePath r (name ++ "_nz") = ""
  · simp [getCubemapPaths, cubemapFaces, faceNames, h1, h2, h3, h4, h5, h6]
  · simp [getCubemapPaths, cubemapFaces, faceNames, h1, h2, h3, h4, h5, h6]

/-- With the six faces of `sky` indexed the six paths are returned in the
order px, nx, py, ny, pz, nz; without `sky_py`, the other five being there,
the result is empty. -/
theorem getCubemapPaths_all_or_nothing_witness :
    getCubemapPaths (withFiles skyIndex) "sky" =
      ["res/sky_px.png", "res/sky_nx.png", "res/sky_py.png",
        "res/sky_ny.png", "res/sky_pz.png", "res/sky_nz.png"]
    ∧ getImagePath (withFiles skyIndexFive) "sky_px" = "res/sky_px.png"
    ∧ getCubemapPaths (withFiles skyIndexFive) "sky" = [] :=
  ⟨((getCubemapPaths_all_or_nothing (withFiles skyIndex) "sky").2.1
      (by decide)).trans (by decide),
   by decide,
   (getCubemapPaths_all_or_nothing (withFiles skyIndexFive) "sky").2.2
      ⟨"sky_py", by decide, by decide⟩⟩

/-! ## The mipmap chain of `getTexture` -/

theorem mipmapLevels_chain (r : Resources) (name : String) (k : Nat)
    (hk : getImagePath r (name ++ "_" ++ toString k) = "") :
    ∀ (n j : Nat) (paths : List String), j ≤ k → k - j < n →
      (∀ i, j ≤ i → i < k → getImagePath r (name ++ "_" ++ toString i) ≠ "") →
      mipmapLevels r name n j paths
        = some (paths ++ (List.range' j (k - j)).map
            (fun i => getImagePath r (name ++ "_" ++ toString i))) := by
  intro n
  induction n with
  | zero => intro j paths _ hlt _; omega
  | succ n ih =>
    intro j paths hjk hlt hres
    by_cases hj : j = k
    · subst hj
      simp [mipmapLevels, hk]
    · have hjlt : j < k := by omega
      have hstep : k - j = (k - (j + 1)) + 1 := by omega
      have hp := hres j (Nat.le_refl j) hjlt
      have hrec := ih (j + 1)
        (paths ++ [getImagePath r (name ++ "_" ++ toString j)])
        (by omega) (by omega) (fun i hi hik => hres i (by omega) hik)
      rw [hstep, List.range'_succ]
      simp only [mipmapLevels, ne_eq, hp, not_false_eq_true, if_true]
      rw [hrec]
      simp

theorem mipmapLevels_empty (r : Resources) (name : String)
    (hlevel : getImagePath r (name ++ "_" ++ toString 0) = "") :
    mipmapLevels r name UINT_RANGE 0 [] = some [] := by
  simp [UINT_RANGE, mipmapLevels, hlevel]

/-- C4: for a name that is not cached and has no image of its own, when `k`
is the least level such that `name_k` does not resolve, the loop of
`getTexture` gathers exactly the image paths of `name_0`, ..., `name_(k-1)`
in increasing order; for `0 < k` this list is the one passed to
`GLUtilities::loadTexture`, whose result is stored under `name` and returned;
for `k = 0` the list is empty, no load is made for `name` and the call
returns what `getTexture("DEBUG_DEFAULT")` returns on the same state.  The
level counter is an `unsigned int`, hence `k < UINT_RANGE`. -/
theorem getTexture_mipmap_chain (gl : GLUtilities) (r : Resources)
    (name : String) (srgb : Bool) (depth k : Nat)
    (hcache : StdMap.count r._textures name = 0)
    (himage : getImagePath r name = "")
    (hrange : k < UINT_RANGE)
    (hbelow : ∀ i, i < k → getImagePath r (name ++ "_" ++ toString i) ≠ "")
    (hk : getImagePath r (name ++ "_" ++ toString k) = "") :
    mipmapLevels r name UINT_RANGE 0 [] = some ((List.range k).map
      (fun i => getImagePath r (name ++ "_" ++ toString i)))
    ∧ (0 < k → getTexture gl (depth + 1) r name srgb =
        some (gl.loadTexture r.calls ((List.range k).map
            (fun i => getImagePath r (name ++ "_" ++ toString i))) srgb,
          { r with
            calls := r.calls ++ [Call.loadTexture ((List.range k).map
              (fun i => getImagePath r (name ++ "_" ++ toString i))) srgb]
            _textures := StdMap.assign r._textures name
              (gl.loadTexture r.calls ((List.range k).map
                (fun i => getImagePath r (name ++ "_" ++ toString i)))
                srgb) }))
    ∧ (k = 0 → getTexture gl (depth + 1) r name srgb =
        getTexture gl depth r "DEBUG_DEFAULT" gl.getTextureDefaultSrgb) := by
  have hchain : mipmapLevels r name UINT_RANGE 0 [] = some ((List.range k).map
      (fun i => getImagePath r (name ++ "_" ++ toString i))) := by
    have h := mipmapLevels_chain r name k hk UINT_RANGE 0 [] (Nat.zero_le k)
      (by omega) (fun i _ hik => hbelow i hik)
    rw [h, List.range_eq_range']
    simp
  refine ⟨hchain, ?_, ?_⟩
  · intro hpos
    have hne : (List.range k).map
        (fun i => getImagePath r (name ++ "_" ++ toString i)) ≠ [] := by
      intro h
      have hlen := congrArg List.length h
      simp at hlen
      omega
    simp only [getTexture, hcache, himage, hchain, storeTexture]
    simp [hne]
  · intro hzero
    subst hzero
    simp only [getTexture, hcache, himage, hchain]
    simp

/-- With the images `tex_0`, `tex_1`, `tex_3` and no `tex_2`, the first
unresolved level is 2 and `getTexture("tex")` passes the list
`[tex_0, tex_1]` to the loader. -/
theorem getTexture_mipmap_chain_witness :
    mipmapLevels (withFiles texIndex) "tex" UINT_RANGE 0 []
      = some ["res/tex_0.png", "res/tex_1.png"]
    ∧ (getTexture exampleGL 1 (withFiles texIndex) "tex" false).map
        (fun result => result.2.calls)
      = some [Call.loadTexture ["res/tex_0.png", "res/tex_1.png"] false] :=
  have h := getTexture_mipmap_chain exampleGL (withFiles texIndex) "tex" false
    0 2 (by decide) (by decide) (by decide) (by decide) (by decide)
  ⟨h.1.trans (by decide), by rw [h.2.1 (by decide)]; decide⟩

/-! ## Lemmas on `getTexture` -/

theorem getTexture_hit (gl : GLUtilities) (r : Resources) (name : String)
    (srgb : Bool) (depth : Nat) (h : 0 < StdMap.count r._textures name) :
    getTexture gl (depth + 1) r name srgb
      = some (StdMap.get r._textures name, r) := by
  simp [getTexture, h]

theorem storeTexture_cached (gl : GLUtilities) (r : Resources) (name : String)
    (paths : List String) (srgb : Bool) :
    0 < StdMap.count (storeTexture gl r name paths srgb).2._textures name
    ∧ StdMap.get (storeTexture gl r name paths srgb).2._textures name
        = (storeTexture gl r name paths srgb).1 := by
  simp [storeTexture, StdMap.count_assign_self, StdMap.get_assign_self]

/-- The three ways a call of `getTexture` returns: the name is cached; the
name resolves and is loaded; the name does not resolve and the result is that
of the call for `DEBUG_DEFAULT`. -/
theorem getTexture_cases (gl : GLUtilities) (r r' : Resources) (name : String)
    (srgb : Bool) (depth : Nat) (h : TextureInfos)
    (hret : getTexture gl (depth + 1) r name srgb = some (h, r')) :
    (0 < StdMap.count r._textures name
      ∧ h = StdMap.get r._textures name ∧ r' = r)
    ∨ (StdMap.count r._textures name = 0
      ∧ ∃ paths, (h, r') = storeTexture gl r name paths srgb)
    ∨ (StdMap.count r._textures name = 0
      ∧ getImagePath r name = ""
      ∧ mipmapLevels r name UINT_RANGE 0 [] = some []
      ∧ getTexture gl depth r "DEBUG_DEFAULT" gl.getTextureDefaultSrgb
          = some (h, r')) := by
  by_cases hc : 0 < StdMap.count r._textures name
  · left
    rw [getTexture_hit gl r name srgb depth hc] at hret
    simp only [Option.some.injEq, Prod.mk.injEq] at hret
    exact ⟨hc, hret.1.symm, hret.2.symm⟩
  · right
    have hc0 : StdMap.count r._textures name = 0 := by omega
    by_cases hp : getImagePath r name = ""
    · cases hm : mipmapLevels r name UINT_RANGE 0 [] with
      | none => simp [getTexture, hc0, hp, hm] at hret
      | some paths =>
        by_cases hne : paths = []
        · right
          subst hne
          simp only [getTexture, hc0, hp, hm] at hret
          simp at hret
          exact ⟨hc0, hp, rfl, hret⟩
        · left
          simp only [getTexture, hc0, hp, hm] at hret
          simp [hne] at hret
          exact ⟨hc0, paths, by rw [← hret]⟩
    · left
      simp only [getTexture, hc0] at hret
      simp [hp] at hret
      exact ⟨hc0, [getImagePath r name], by rw [← hret]⟩

/-- After a returning call of `getTexture("DEBUG_DEFAULT")` the handle
returned is the one cached under `DEBUG_DEFAULT`. -/
theorem getTexture_default_cached (gl : GLUtilities) (depth : Nat) :
    ∀ (r r' : Resources) (srgb : Bool) (h : TextureInfos),
      getTexture gl depth r "DEBUG_DEFAULT" srgb = some (h, r') →
      0 < StdMap.count r'._textures "DEBUG_DEFAULT"
      ∧ StdMap.get r'._textures "DEBUG_DEFAULT" = h := by
  induction depth with
  | zero => intro r r' srgb h hret; simp [getTexture] at hret
  | succ d ih =>
    intro r r' srgb h hret
    rcases getTexture_cases gl r r' _ srgb d h hret with
      ⟨hc, hh, hr⟩ | ⟨_, paths, hst⟩ | ⟨_, _, _, hrec⟩
    · subst hr
      exact ⟨hc, hh.symm⟩
    · have hr : r' = (storeTexture gl r "DEBUG_DEFAULT" paths srgb).2 := by
        rw [← hst]
      have hh : h = (storeTexture gl r "DEBUG_DEFAULT" paths srgb).1 := by
        rw [← hst]
      subst hr hh
      exact storeTexture_cached gl r _ paths srgb
    · exact ih r r' _ h hrec

/-- When `DEBUG_DEFAULT` is not cached and resolves neither to an image nor
to a first mipmap level, no depth of nested calls makes
`getTexture("DEBUG_DEFAULT")` return. -/
theorem getTexture_default_unresolved (gl : GLUtilities) (r : Resources)
    (hcache : StdMap.count r._textures "DEBUG_DEFAULT" = 0)
    (himage : getImagePath r "DEBUG_DEFAULT" = "")
    (hlevel : getImagePath r ("DEBUG_DEFAULT" ++ "_" ++ toString 0) = "") :
    ∀ (depth : Nat) (srgb : Bool),
      getTexture gl depth r "DEBUG_DEFAULT" srgb = none := by
  have hchain := mipmapLevels_empty r "DEBUG_DEFAULT" hlevel
  intro depth
  induction depth with
  | zero => intro srgb; simp [getTexture]
  | succ d ih =>
    intro srgb
    simp only [getTexture, hcache, himage, hchain]
    simpa using ih gl.getTextureDefaultSrgb

theorem readContent_frame (gl : GLUtilities) (r : Resources) (path : String) :
    (readContent gl r path).2._files = r._files
    ∧ (readContent gl r path).2._meshes = r._meshes
    ∧ (readContent gl r path).2._textures = r._textures
    ∧ (readContent gl r path).2._programs = r._programs
    ∧ (readContent gl r path).1 = (gl.disk path).getD "" := by
  cases hd : gl.disk path <;> simp [readContent, hd]

theorem getString_frame (gl : GLUtilities) (r : Resources) (filename : String) :
    (getString gl r filename).2._files = r._files
    ∧ (getString gl r filename).2._meshes = r._meshes
    ∧ (getString gl r filename).2._textures = r._textures
    ∧ (getString gl r filename).2._programs = r._programs := by
  have h := fun path => readContent_frame gl r path
  by_cases h1 : 0 < StdMap.count r._files filename
  · simp [getString, h1, h]
  · by_cases h2 : 0 < StdMap.count r._files (filename ++ ".txt")
    · simp [getString, h1, h2, h]
    · simp [getString, h1, h2]

theorem getString_content (gl : GLUtilities) (r r' : Resources)
    (hfiles : r'._files = r._files) (filename : String) :
    (getString gl r' filename).1 = (getString gl r filename).1 := by
  have h := fun path => (readContent_frame gl r path).2.2.2.2
  have h' := fun path => (readContent_frame gl r' path).2.2.2.2
  by_cases h1 : 0 < StdMap.count r._files filename
  · simp [getString, hfiles, h1, h, h']
  · by_cases h2 : 0 < StdMap.count r._files (filename ++ ".txt")
    · simp [getString, hfiles, h1, h2, h, h']
    · simp [getString, hfiles, h1, h2]

theorem getMesh_fail (gl : GLUtilities) (r : Resources) (name : String)
    (hc0 : StdMap.count r._meshes name = 0)
    (htext : (getString gl r (name ++ ".obj")).1 = "") :
    (getMesh gl r name).1 = default
    ∧ (getMesh gl r name).2._files = r._files
    ∧ (getMesh gl r name).2._meshes = r._meshes
    ∧ (getMesh gl r name).2._textures = r._textures
    ∧ (getMesh gl r name).2._programs = r._programs := by
  obtain ⟨hf, hm, ht, hp⟩ := getString_frame gl r (name ++ ".obj")
  simp [getMesh, hc0, htext, hf, hm, ht, hp]

theorem cubemapLevels_files (r r' : Resources) (h : r'._files = r._files)
    (name : String) (n lastMipmap : Nat) (allPaths : List (List String)) :
    cubemapLevels r' name n lastMipmap allPaths
      = cubemapLevels r name n lastMipmap allPaths := by
  induction n generalizing lastMipmap allPaths with
  | zero => simp [cubemapLevels]
  | succ n ih => simp [cubemapLevels, getCubemapPaths_files r r' h, ih]

theorem getCubemap_fail (gl : GLUtilities) (r : Resources) (name : String)
    (srgb : Bool) (hc0 : StdMap.count r._textures name = 0)
    (hp : getCubemapPaths r name = [])
    (hm : cubemapLevels r name UINT_RANGE 0 [] = some []) :
    getCubemap gl r name srgb = some (default, { r with log := r.log ++
      ["Unable to find cubemap named \"" ++ name ++ "\"."] }) := by
  simp only [getCubemap, hc0, hp, hm]
  simp

theorem getTexture_unresolved_step (gl : GLUtilities) (r : Resources)
    (name : String) (srgb : Bool) (depth : Nat)
    (hcache : StdMap.count r._textures name = 0)
    (himage : getImagePath r name = "")
    (hlevel : getImagePath r (name ++ "_" ++ toString 0) = "") :
    getTexture gl (depth + 1) r name srgb
      = getTexture gl depth r "DEBUG_DEFAULT" gl.getTextureDefaultSrgb := by
  have hchain := mipmapLevels_empty r name hlevel
  simp only [getTexture, hcache, himage, hchain]
  simp

/-! ## The getters return -/

/-- C5: for a name that is not cached and resolves neither to an image nor to
a first mipmap level, `getTexture(name)` has the outcome of
`getTexture("DEBUG_DEFAULT")` on the same state; when it returns a handle, a
following `getTexture("DEBUG_DEFAULT")` on the resulting state returns that
same handle and leaves the state as it is; and it does return, within two
nested calls, when `DEBUG_DEFAULT` is cached (the stored handle, state
unchanged) or resolves to an image (the handle loaded from that image and
stored under `DEBUG_DEFAULT`). -/
theorem getTexture_fallback (gl : GLUtilities) (r : Resources) (name : String)
    (srgb : Bool)
    (hcache : StdMap.count r._textures name = 0)
    (himage : getImagePath r name = "")
    (hlevel : getImagePath r (name ++ "_" ++ toString 0) = "") :
    (∀ depth, getTexture gl (depth + 1) r name srgb
      = getTexture gl depth r "DEBUG_DEFAULT" gl.getTextureDefaultSrgb)
    ∧ (∀ depth h r', getTexture gl depth r name srgb = some (h, r') →
      ∀ depth' srgb',
        getTexture gl (depth' + 1) r' "DEBUG_DEFAULT" srgb' = some (h, r'))
    ∧ (0 < StdMap.count r._textures "DEBUG_DEFAULT" → ∀ depth,
      getTexture gl (depth + 2) r name srgb
        = some (StdMap.get r._textures "DEBUG_DEFAULT", r))
    ∧ (StdMap.count r._textures "DEBUG_DEFAULT" = 0 →
      getImagePath r "DEBUG_DEFAULT" ≠ "" → ∀ depth,
      getTexture gl (depth + 2) r name srgb
        = some (gl.loadTexture r.calls [getImagePath r "DEBUG_DEFAULT"]
            gl.getTextureDefaultSrgb,
          { r with
            calls := r.calls ++
              [Call.loadTexture [getImagePath r "DEBUG_DEFAULT"]
                gl.getTextureDefaultSrgb]
            _textures := StdMap.assign r._textures "DEBUG_DEFAULT"
              (gl.loadTexture r.calls [getImagePath r "DEBUG_DEFAULT"]
                gl.getTextureDefaultSrgb) })) := by
  have hchain := mipmapLevels_empty r name hlevel
  have hstep : ∀ depth, getTexture gl (depth + 1) r name srgb
      = getTexture gl depth r "DEBUG_DEFAULT" gl.getTextureDefaultSrgb := by
    intro depth
    simp only [getTexture, hcache, himage, hchain]
    simp
  refine ⟨hstep, ?_, ?_, ?_⟩
  · intro depth h r' hret depth' srgb'
    cases depth with
    | zero => simp [getTexture] at hret
    | succ d =>
      rw [hstep d] at hret
      obtain ⟨hc, hg⟩ := getTexture_default_cached gl d r r' _ h hret
      rw [getTexture_hit gl r' _ srgb' depth' hc, hg]
  · intro hdef depth
    rw [hstep (depth + 1), getTexture_hit gl r _ _ depth hdef]
  · intro hdef hpath depth
    rw [hstep (depth + 1)]
    simp only [getTexture, hdef, storeTexture]
    simp [hpath]

/-- With `DEBUG_DEFAULT.png` as the only image, `getTexture("missing")`
loads the default texture and returns its handle 1, and a following
`getTexture("DEBUG_DEFAULT")` returns the handle 1 on the same state. -/
theorem getTexture_fallback_witness :
    getTexture exampleGL 2 (withFiles defaultIndex) "missing" false
      = some (⟨1, 0, 0, 0, 1⟩, defaultCached)
    ∧ getTexture exampleGL 1 defaultCached "DEBUG_DEFAULT" false
      = some (⟨1, 0, 0, 0, 1⟩, defaultCached) :=
  have h := getTexture_fallback exampleGL (withFiles defaultIndex) "missing"
    false (by decide) (by decide) (by decide)
  ⟨(h.2.2.2 (by decide) (by decide) 0).trans (by decide),
   h.2.1 2 ⟨1, 0, 0, 0, 1⟩ defaultCached (by decide) 0 false⟩

/-! ## Building the index -/

theorem indexFile_find (r : Resources) (n path name : String) :
    StdMap.find (indexFile r n path)._files name =
      match StdMap.find r._files name with
      | some q => some q
      | none => if n = name ∧ indexable n = true then some path else none := by
  unfold indexFile indexable
  cases hd : n.data with
  | nil =>
    cases hf : StdMap.find r._files name <;> simp
  | cons c cs =>
    by_cases hdot : c = '.'
    · cases hf : StdMap.find r._files name <;> simp [hdot, hf]
    · by_cases hcount : StdMap.count r._files n = 0
      · simp only [ne_eq, hdot, not_false_eq_true, if_true, hcount]
        by_cases hn : name = n
        · subst hn
          rw [StdMap.find_assign_self, (StdMap.count_eq_zero_iff _ _).1 hcount]
          simp
        · rw [StdMap.find_assign_ne _ _ _ _ hn]
          have hn' : ¬ n = name := fun h => hn h.symm
          cases hf : StdMap.find r._files name <;> simp [hn']
      · simp only [ne_eq, hdot, not_false_eq_true, if_true, hcount, if_false]
        cases hf : StdMap.find r._files name with
        | some q => simp
        | none =>
          have hn : ¬ n = name := by
            intro h
            subst h
            exact hcount ((StdMap.count_eq_zero_iff _ _).2 hf)
          simp [hn]

theorem indexFile_present (r : Resources) (n path : String)
    (h : 0 < StdMap.count r._files n) :
    (indexFile r n path)._files = r._files := by
  have h0 : ¬ StdMap.count r._files n = 0 := by omega
  unfold indexFile
  cases hd : n.data with
  | nil => rfl
  | cons c cs => by_cases hdot : c = '.' <;> simp [hdot, h0]

theorem scanFiles_find (files : List (String × String)) :
    ∀ (r : Resources) (name : String),
      StdMap.find (scanFiles r files)._files name =
        match StdMap.find r._files name with
        | some q => some q
        | none =>
          if indexable name = true then
            (files.find? (fun f => decide (f.1 = name))).map Prod.snd
          else none := by
  induction files with
  | nil =>
    intro r name
    cases hf : StdMap.find r._files name <;> simp [scanFiles, hf]
  | cons f rest ih =>
    intro r name
    rw [scanFiles, ih, indexFile_find]
    cases hf : StdMap.find r._files name with
    | some q => simp
    | none =>
      by_cases hn : f.1 = name
      · subst hn
        by_cases hi : indexable f.1 = true <;> simp [hi]
      · simp [hn]

theorem parseArchive_eq_scanFiles (entries : List ArchiveEntry) :
    ∀ r : Resources, parseArchive r entries = scanFiles r (archiveFiles entries) := by
  induction entries with
  | nil => intro r; rfl
  | cons e rest ih =>
    intro r
    by_cases hd : e.is_directory = true
    · simp [parseArchive, archiveFiles, hd, ih]
    · simp [parseArchive, archiveFiles, hd, ih, scanFiles]

theorem scanFiles_append (a b : List (String × String)) :
    ∀ r : Resources, scanFiles r (a ++ b) = scanFiles (scanFiles r a) b := by
  induction a with
  | nil => intro r; rfl
  | cons f rest ih => intro r; simp [scanFiles, ih]

theorem indexFile_files_congr (r s : Resources) (h : r._files = s._files)
    (n path : String) : (indexFile r n path)._files = (indexFile s n path)._files := by
  unfold indexFile
  cases hd : n.data with
  | nil => exact h
  | cons c cs =>
    by_cases hdot : c = '.'
    · simp [hdot, h]
    · by_cases hcount : StdMap.count s._files n = 0 <;> simp [hdot, h, hcount]

theorem scanFiles_files_congr (files : List (String × String)) :
    ∀ r s : Resources, r._files = s._files →
      (scanFiles r files)._files = (scanFiles s files)._files := by
  induction files with
  | nil => intro r s h; exact h
  | cons f rest ih =>
    intro r s h
    exact ih _ _ (indexFile_files_congr r s h f.1 f.2)

mutual
theorem parseEntry_files : ∀ (e : DirEntry) (r s : Resources) (path : String),
    r._files = s._files →
    (parseEntry r path e)._files = (scanFiles s (entryFiles path e))._files
  | .readError, r, s, path, h => by simpa [parseEntry, entryFiles, scanFiles] using h
  | .dir n es, r, s, path, h => by
    by_cases hc : n.length > 0 ∧ n ≠ "." ∧ n ≠ ".."
    · rw [parseEntry, entryFiles, if_pos hc, if_pos hc]
      exact parseDirectory_files es r s _ h
    · rw [parseEntry, entryFiles, if_neg hc, if_neg hc]
      exact h
  | .file n, r, s, path, h => by
    simp only [parseEntry, entryFiles, scanFiles]
    exact indexFile_files_congr r s h _ _
theorem parseDirectory_files : ∀ (es : List DirEntry) (r s : Resources) (path : String),
    r._files = s._files →
    (parseDirectory r path es)._files = (scanFiles s (directoryFiles path es))._files
  | [], r, s, path, h => by simpa [parseDirectory, directoryFiles, scanFiles] using h
  | e :: rest, r, s, path, h => by
    simp only [parseDirectory, directoryFiles]
    rw [scanFiles_append]
    exact parseDirectory_files rest _ _ path (parseEntry_files e r s path h)
end
/-- C6: scanning a sequence of regular files (bare name, path) into an empty
index gives an index whose keys are exactly the bare names of the sequence
that are not empty and do not start with a dot, each mapped to the path of
the first file of the sequence with that name; a file whose bare name is
already a key leaves the index as it is.  `parseArchive` is this scan over
the entries of the archive that are not directories, and `parseDirectory`
builds the index of this scan over the regular files of the tree. -/
theorem scanFiles_first_seen (r : Resources) (files : List (String × String))
    (hempty : r._files = []) :
    (∀ name, StdMap.find (scanFiles r files)._files name =
      if indexable name = true then
        (files.find? (fun f => decide (f.1 = name))).map Prod.snd
      else none)
    ∧ (∀ name, 0 < StdMap.count (scanFiles r files)._files name ↔
      (indexable name = true ∧ ∃ f ∈ files, f.1 = name))
    ∧ (∀ (s : Resources) (name path : String),
      0 < StdMap.count s._files name →
      (indexFile s name path)._files = s._files)
    ∧ (∀ entries, parseArchive r entries = scanFiles r (archiveFiles entries))
    ∧ (∀ directoryPath entries,
      (parseDirectory r directoryPath entries)._files
        = (scanFiles r (directoryFiles directoryPath entries))._files) := by
  have hfind : ∀ name, StdMap.find (scanFiles r files)._files name =
      if indexable name = true then
        (files.find? (fun f => decide (f.1 = name))).map Prod.snd
      else none := by
    intro name
    rw [scanFiles_find, hempty]
    simp [StdMap.find]
  refine ⟨hfind, ?_, fun s name path h => indexFile_present s name path h,
    fun entries => parseArchive_eq_scanFiles entries r,
    fun directoryPath entries =>
      parseDirectory_files entries r r directoryPath rfl⟩
  intro name
  rw [StdMap.count_pos_iff, hfind]
  by_cases hi : indexable name = true
  · simp only [hi, if_true, true_and]
    constructor
    · rintro ⟨v, hv⟩
      cases hfd : files.find? (fun f => decide (f.1 = name)) with
      | none => simp [hfd] at hv
      | some f =>
        have hmem := List.mem_of_find?_eq_some hfd
        have hprop := List.find?_some hfd
        exact ⟨f, hmem, by simpa using hprop⟩
    · rintro ⟨f, hmem, hname⟩
      cases hfd : files.find? (fun f => decide (f.1 = name)) with
      | none =>
        rw [List.find?_eq_none] at hfd
        exact absurd hname (by simpa using hfd f hmem)
      | some g => exact ⟨g.2, by simp⟩
  · simp [hi]

/-- Scanning `foo.png` twice (with a hidden file in between) keeps the first
path; the index has the two keys `bar.obj` and `foo.png`, and it is the index
`parseDirectory` builds from the tree `exampleTree`. -/
theorem scanFiles_first_seen_witness :
    (scanFiles (withFiles [])
      [("foo.png", "res/foo.png"), (".hidden", "res/.hidden"),
       ("foo.png", "res/sub/foo.png"), ("bar.obj", "res/sub/bar.obj")])._files
      = [("bar.obj", "res/sub/bar.obj"), ("foo.png", "res/foo.png")]
    ∧ StdMap.find (scanFiles (withFiles [])
        [("foo.png", "res/foo.png"), (".hidden", "res/.hidden"),
         ("foo.png", "res/sub/foo.png"),
         ("bar.obj", "res/sub/bar.obj")])._files "foo.png"
      = some "res/foo.png"
    ∧ (parseDirectory (withFiles []) "res" exampleTree)._files
      = [("bar.obj", "res/sub/bar.obj"), ("foo.png", "res/foo.png")] :=
  ⟨by decide,
   ((scanFiles_first_seen (withFiles [])
      [("foo.png", "res/foo.png"), (".hidden", "res/.hidden"),
       ("foo.png", "res/sub/foo.png"), ("bar.obj", "res/sub/bar.obj")]
      rfl).1 "foo.png").trans (by decide),
   by decide⟩

/-! ## `reset` -/

/-- C7, as the code has it: after `reset()` the texture cache and the mesh
cache are empty, whatever they contained, each cached texture and each cached
mesh having been deleted once; the program cache is the one before the
call. -/
theorem reset_clears_textures_and_meshes (r : Resources) :
    (reset r)._textures = []
    ∧ (reset r)._meshes = []
    ∧ (reset r)._programs = r._programs
    ∧ (reset r).calls = r.calls
        ++ r._textures.map (fun tex => Call.glDeleteTextures tex.2.id)
        ++ r._meshes.map (fun mesh => Call.glDeleteVertexArrays mesh.2.vId) :=
  ⟨rfl, rfl, rfl, rfl⟩

/-- C7 fails as stated: in the state `stocked`, `reset()` empties the texture
cache and the mesh cache but the program `object_basic` is still a key of
the program cache afterwards. -/
theorem reset_keeps_programs :
    (reset stocked)._textures = []
    ∧ (reset stocked)._meshes = []
    ∧ (reset stocked)._programs
        = [("object_basic", ⟨3, "object_basic", "object_basic"⟩)]
    ∧ ¬ ((reset stocked)._textures = [] ∧ (reset stocked)._meshes = []
        ∧ (reset stocked)._programs = []) := by
  decide

/-- C8: `reset()` leaves the file-name index unchanged, so every key and
every image name resolves to the same path before and after; and on a state
whose texture and mesh caches are empty `reset()` returns that same state. -/
theorem reset_keeps_index (r : Resources) :
    (reset r)._files = r._files
    ∧ (∀ key, StdMap.find (reset r)._files key = StdMap.find r._files key)
    ∧ (∀ name, getImagePath (reset r) name = getImagePath r name)
    ∧ (∀ name, getCubemapPaths (reset r) name = getCubemapPaths r name)
    ∧ (r._textures = [] → r._meshes = [] → reset r = r) := by
  refine ⟨rfl, fun _ => rfl, fun name => getImagePath_files r _ rfl name,
    fun name => getCubemapPaths_files r _ rfl name, ?_⟩
  intro ht hm
  cases r
  simp only at ht hm
  subst ht hm
  simp [reset]

/-- On `withFiles wallIndex`, whose caches are empty, `reset()` returns the
same state. -/
theorem reset_keeps_index_witness :
    reset (withFiles wallIndex) = withFiles wallIndex :=
  (reset_keeps_index (withFiles wallIndex)).2.2.2.2 rfl rfl

/-! ## `getString` -/

/-- C9: `getString(filename)` reads the path indexed under the key `filename`
when that key is present, otherwise the path indexed under
`filename + ".txt"` when that key is present, and returns the content read
(nothing when the file cannot be opened); when neither key is present it
returns the empty string and reads no file. -/
theorem getString_lookup (gl : GLUtilities) (r : Resources)
    (filename : String) :
    (0 < StdMap.count r._files filename →
      (getString gl r filename).1
        = (gl.disk (StdMap.get r._files filename)).getD ""
      ∧ (getString gl r filename).2.calls
        = r.calls ++ [Call.getRawData (StdMap.get r._files filename)])
    ∧ (StdMap.count r._files filename = 0 →
      0 < StdMap.count r._files (filename ++ ".txt") →
      (getString gl r filename).1
        = (gl.disk (StdMap.get r._files (filename ++ ".txt"))).getD ""
      ∧ (getString gl r filename).2.calls
        = r.calls ++
          [Call.getRawData (StdMap.get r._files (filename ++ ".txt"))])
    ∧ (StdMap.count r._files filename = 0 →
      StdMap.count r._files (filename ++ ".txt") = 0 →
      (getString gl r filename).1 = ""
      ∧ (getString gl r filename).2.calls = r.calls) := by
  have hread : ∀ path, (readContent gl r path).1 = (gl.disk path).getD ""
      ∧ (readContent gl r path).2.calls = r.calls ++ [Call.getRawData path] := by
    intro path
    cases hd : gl.disk path <;> simp [readContent, hd]
  refine ⟨?_, ?_, ?_⟩
  · intro h
    simpa [getString, h] using hread _
  · intro h0 h
    simpa [getString, h0, h] using hread _
  · intro h0 h1
    simp [getString, h0, h1]

/-- With only `readme.txt` indexed, `getString("readme")` returns the content
of `res/readme.txt`, and `getString("notes")` returns the empty string
without reading a file. -/
theorem getString_lookup_witness :
    (getString exampleGL (withFiles readmeIndex) "readme").1 = "hello"
    ∧ (getString exampleGL (withFiles readmeIndex) "readme").2.calls
        = [Call.getRawData "res/readme.txt"]
    ∧ (getString exampleGL (withFiles readmeIndex) "notes").1 = ""
    ∧ (getString exampleGL (withFiles readmeIndex) "notes").2.calls = [] :=
  have h := getString_lookup exampleGL (withFiles readmeIndex) "readme"
  have h' := getString_lookup exampleGL (withFiles readmeIndex) "notes"
  ⟨(h.2.1 (by decide) (by decide)).1.trans (by decide),
   (h.2.1 (by decide) (by decide)).2.trans (by decide),
   (h'.2.2 (by decide) (by decide)).1,
   (h'.2.2 (by decide) (by decide)).2.trans (by decide)⟩

/-! ## Registration of textures -/

/-- C10, as the code has it: `registerTexture(name, data)` and
`registerCubemap(name, data)` always upload the data and store the new handle
under `name`, replacing the entry that may be there: the handle returned is
the one the upload gives, it is the entry of `name` in the texture cache after
the call, and the entries of the other names are untouched. -/
theorem registerTexture_overwrites (gl : GLUtilities) (r : Resources)
    (name : String) (data : plMipmap) :
    ((registerTexture gl r name data).1 = gl.loadTextureData r.calls data
      ∧ (registerTexture gl r name data).2.calls
          = r.calls ++ [Call.loadTextureData data]
      ∧ StdMap.find (registerTexture gl r name data).2._textures name
          = some (registerTexture gl r name data).1
      ∧ ∀ other, other ≠ name →
          StdMap.find (registerTexture gl r name data).2._textures other
            = StdMap.find r._textures other)
    ∧ ((registerCubemap gl r name data).1 = gl.loadCubemapData r.calls data
      ∧ (registerCubemap gl r name data).2.calls
          = r.calls ++ [Call.loadCubemapData data]
      ∧ StdMap.find (registerCubemap gl r name data).2._textures name
          = some (registerCubemap gl r name data).1
      ∧ ∀ other, other ≠ name →
          StdMap.find (registerCubemap gl r name data).2._textures other
            = StdMap.find r._textures other) := by
  refine ⟨⟨rfl, rfl, ?_, ?_⟩, ⟨rfl, rfl, ?_, ?_⟩⟩
  · simp [registerTexture, StdMap.find_assign_self]
  · intro other hne
    simp [registerTexture, StdMap.find_assign_ne _ _ _ _ hne]
  · simp [registerCubemap, StdMap.find_assign_self]
  · intro other hne
    simp [registerCubemap, StdMap.find_assign_ne _ _ _ _ hne]

/-- In the state `stocked`, registering a texture under the new name `floor`
leaves the entry of `wall` as it was. -/
theorem registerTexture_overwrites_witness :
    StdMap.find (registerTexture exampleGL stocked "floor" ⟨[7]⟩).2._textures
        "wall"
      = some ⟨1, 0, 0, 0, 1⟩ :=
  ((registerTexture_overwrites exampleGL stocked "floor" ⟨[7]⟩).1.2.2.2
      "wall" (by decide)).trans (by decide)

/-- C10 fails as stated: in the state `wallCached`, where `wall` is a key of
the texture cache with the handle 1, `registerTexture("wall", data)` and
`registerCubemap("wall", data)` upload the data, return the new handle 2
and not the stored one, and replace the entry of `wall`. -/
theorem registerTexture_not_idempotent :
    StdMap.get wallCached._textures "wall" = ⟨1, 0, 0, 0, 1⟩
    ∧ (registerTexture exampleGL wallCached "wall" ⟨[7]⟩).1 = ⟨2, 0, 0, 0, 1⟩
    ∧ (registerTexture exampleGL wallCached "wall" ⟨[7]⟩).2._textures
        ≠ wallCached._textures
    ∧ (registerTexture exampleGL wallCached "wall" ⟨[7]⟩).2.calls
        = wallCached.calls ++ [Call.loadTextureData ⟨[7]⟩]
    ∧ (registerCubemap exampleGL wallCached "wall" ⟨[7]⟩).1 = ⟨2, 0, 0, 0, 1⟩
    ∧ (registerCubemap exampleGL wallCached "wall" ⟨[7]⟩).2._textures
        ≠ wallCached._textures
    ∧ (registerCubemap exampleGL wallCached "wall" ⟨[7]⟩).2.calls
        = wallCached.calls ++ [Call.loadCubemapData ⟨[7]⟩] := by
  decide

/-! ## Registration of meshes and programs -/

theorem registerProgram_hit (gl : GLUtilities) (r : Resources)
    (name vertexContent fragmentContent : String)
    (h : 0 < StdMap.count r._programs name) :
    registerProgram gl r name vertexContent fragmentContent
      = (StdMap.get r._programs name, r) := by
  simp [registerProgram, h]

/-- C11: `registerMesh` always uploads the geometry it is given (one
`setupBuffers` call on that geometry, whose buffer names and index count the
returned handle carries) and stores the handle it returns under `name`,
whatever was stored there before, the entries of the other names being
untouched; `registerProgram` with a name that is a key of the program cache
constructs nothing, returns the stored program and leaves the state as it
is. -/
theorem registerMesh_uploads_registerProgram_keeps (gl : GLUtilities)
    (r : Resources) (name : String) (indices : List Nat)
    (positions normals : List vec3) (colors : List (Nat × Nat × Nat × Nat))
    (texcoords : List (List vec3)) :
    ((registerMesh gl r name indices positions normals colors texcoords).2.calls
        = r.calls ++
          [Call.setupBuffers ⟨indices, positions, normals, colors, texcoords⟩]
      ∧ (registerMesh gl r name indices positions normals colors texcoords).1.vId
        = (gl.setupBuffers r.calls
            ⟨indices, positions, normals, colors, texcoords⟩).vId
      ∧ (registerMesh gl r name indices positions normals colors texcoords).1.eId
        = (gl.setupBuffers r.calls
            ⟨indices, positions, normals, colors, texcoords⟩).eId
      ∧ (registerMesh gl r name indices positions normals colors
          texcoords).1.count
        = (gl.setupBuffers r.calls
            ⟨indices, positions, normals, colors, texcoords⟩).count
      ∧ StdMap.find (registerMesh gl r name indices positions normals colors
          texcoords).2._meshes name
        = some (registerMesh gl r name indices positions normals colors
            texcoords).1
      ∧ StdMap.get (registerMesh gl r name indices positions normals colors
          texcoords).2._meshes name
        = (registerMesh gl r name indices positions normals colors texcoords).1
      ∧ ∀ other, other ≠ name →
          StdMap.find (registerMesh gl r name indices positions normals colors
            texcoords).2._meshes other
          = StdMap.find r._meshes other)
    ∧ (0 < StdMap.count r._programs name →
      ∀ vertexContent fragmentContent,
        registerProgram gl r name vertexContent fragmentContent
          = (StdMap.get r._programs name, r)) := by
  refine ⟨⟨rfl, ?_, ?_, ?_, ?_, ?_, ?_⟩, fun h vertexContent fragmentContent =>
    registerProgram_hit gl r name vertexContent fragmentContent h⟩
  · cases positions <;> rfl
  · cases positions <;> rfl
  · cases positions <;> rfl
  · simp [registerMesh, StdMap.find_assign_self]
  · simp [registerMesh, StdMap.get_assign_self]
  · intro other hne
    simp [registerMesh, StdMap.find_assign_ne _ _ _ _ hne]

/-- In the state `stocked`, where `sphere` is a cached mesh with the buffer
name 2 and `object_basic` a cached program, `registerMesh("sphere", ...)`
uploads again and the cache then holds the new buffer name 1 under `sphere`,
while `registerProgram("object_basic", ...)` returns the stored program and
the state `stocked`. -/
theorem registerMesh_uploads_registerProgram_keeps_witness :
    (StdMap.get stocked._meshes "sphere").vId = 2
    ∧ (StdMap.get (registerMesh exampleGL stocked "sphere" [0, 1, 2] [] [] []
        []).2._meshes "sphere").vId = 1
    ∧ registerProgram exampleGL stocked "object_basic" "void main()" "void main()"
      = (⟨3, "object_basic", "object_basic"⟩, stocked) :=
  have h := registerMesh_uploads_registerProgram_keeps exampleGL stocked
    "sphere" [0, 1, 2] [] [] [] []
  have h' := registerMesh_uploads_registerProgram_keeps exampleGL stocked
    "object_basic" [] [] [] [] []
  ⟨by decide,
   (congrArg MeshInfos.vId h.1.2.2.2.2.2.1).trans
     (h.1.2.1.trans (show _ = 1 by decide)),
   (h'.2 (by decide) "void main()" "void main()").trans
     (show _ = ((⟨3, "object_basic", "object_basic"⟩ : ProgramInfos), stocked)
       by decide)⟩

/-! ## Failed lookups -/

theorem getString_absent (gl : GLUtilities) (r : Resources) (filename : String)
    (h0 : StdMap.count r._files filename = 0)
    (h1 : StdMap.count r._files (filename ++ ".txt") = 0) :
    (getString gl r filename).1 = "" := by
  simp [getString, h0, h1]

theorem getMesh_fail_log (gl : GLUtilities) (r : Resources) (name : String)
    (hc0 : StdMap.count r._meshes name = 0)
    (htext : (getString gl r (name ++ ".obj")).1 = "") :
    (getMesh gl r name).2.log = (getString gl r (name ++ ".obj")).2.log ++
      ["Unable to load mesh named " ++ name ++ "."]
    ∧ (getMesh gl r name).2.calls = (getString gl r (name ++ ".obj")).2.calls := by
  simp [getMesh, hc0, htext]

theorem cubemapLevels_empty (r : Resources) (name : String)
    (hlevel : getCubemapPaths r (name ++ "_" ++ toString 0) = []) :
    cubemapLevels r name UINT_RANGE 0 [] = some [] := by
  simp [UINT_RANGE, cubemapLevels, hlevel]

/-- C12: a failed lookup is not cached and gives an empty handle.  For a name
that is not a key of the mesh cache, when neither `name.obj` nor
`name.obj.txt` is indexed or the text read is empty, `getMesh(name)` returns
the default-constructed `MeshInfos` and leaves the three caches as they are
(`name` is still not a key), and a repeated call looks the text up again and
returns the default handle again.  For a name that is not a key of the
texture cache, when neither `getCubemapPaths(name)` nor
`getCubemapPaths(name_0)` gives the six faces, `getCubemap(name)` returns the
default-constructed `TextureInfos` on the state with one more line in the
log, and a repeated call does the same again. -/
theorem failed_lookup_not_cached (gl : GLUtilities) (r : Resources)
    (name : String) :
    (StdMap.count r._meshes name = 0 →
      ((StdMap.count r._files (name ++ ".obj") = 0
          ∧ StdMap.count r._files (name ++ ".obj" ++ ".txt") = 0)
        ∨ (getString gl r (name ++ ".obj")).1 = "") →
      (getMesh gl r name).1 = default
      ∧ (getMesh gl r name).2._meshes = r._meshes
      ∧ (getMesh gl r name).2._textures = r._textures
      ∧ (getMesh gl r name).2._programs = r._programs
      ∧ StdMap.count (getMesh gl r name).2._meshes name = 0
      ∧ (getMesh gl (getMesh gl r name).2 name).1 = default
      ∧ (getMesh gl (getMesh gl r name).2 name).2._meshes = r._meshes
      ∧ (getMesh gl (getMesh gl r name).2 name).2.log
          = (getString gl (getMesh gl r name).2 (name ++ ".obj")).2.log ++
            ["Unable to load mesh named " ++ name ++ "."]
      ∧ (getMesh gl (getMesh gl r name).2 name).2.calls
          = (getString gl (getMesh gl r name).2 (name ++ ".obj")).2.calls)
    ∧ (StdMap.count r._textures name = 0 →
      getCubemapPaths r name = [] →
      getCubemapPaths r (name ++ "_" ++ toString 0) = [] →
      ∀ srgb srgb',
        getCubemap gl r name srgb = some (default, { r with log := r.log ++
          ["Unable to find cubemap named \"" ++ name ++ "\"."] })
        ∧ getCubemap gl { r with log := r.log ++
            ["Unable to find cubemap named \"" ++ name ++ "\"."] } name srgb'
          = some (default, { r with log := r.log ++
            ["Unable to find cubemap named \"" ++ name ++ "\"."] ++
            ["Unable to find cubemap named \"" ++ name ++ "\"."] })) := by
  constructor
  · intro hc0 hfail
    have htext : (getString gl r (name ++ ".obj")).1 = "" := by
      rcases hfail with ⟨h0, h1⟩ | h
      · exact getString_absent gl r _ h0 h1
      · exact h
    obtain ⟨h1, hf, hm, ht, hp⟩ := getMesh_fail gl r name hc0 htext
    have hc0' : StdMap.count (getMesh gl r name).2._meshes name = 0 := by
      rw [hm]
      exact hc0
    have htext' : (getString gl (getMesh gl r name).2 (name ++ ".obj")).1
        = "" := by
      rw [getString_content gl r _ hf]
      exact htext
    obtain ⟨h1', _, hm', _, _⟩ :=
      getMesh_fail gl (getMesh gl r name).2 name hc0' htext'
    obtain ⟨hlog, hcalls⟩ :=
      getMesh_fail_log gl (getMesh gl r name).2 name hc0' htext'
    exact ⟨h1, hm, ht, hp, hc0', h1', hm'.trans hm, hlog, hcalls⟩
  · intro hc0 hp hlevel srgb srgb'
    have hm := cubemapLevels_empty r name hlevel
    refine ⟨getCubemap_fail gl r name srgb hc0 hp hm, ?_⟩
    have hp' := (getCubemapPaths_files r
      { r with log := r.log ++
        ["Unable to find cubemap named \"" ++ name ++ "\"."] } rfl name).trans hp
    have hm' := (cubemapLevels_files r
      { r with log := r.log ++
        ["Unable to find cubemap named \"" ++ name ++ "\"."] } rfl
      name UINT_RANGE 0 []).trans hm
    exact getCubemap_fail gl _ name srgb' hc0 hp' hm'

/-- With the index `skyIndexFive`, which has no `sphere.obj` and only five
faces of `sky`, `getMesh("sphere")` and `getCubemap("sky")` return the default
handles and cache nothing. -/
theorem failed_lookup_not_cached_witness :
    (getMesh exampleGL (withFiles skyIndexFive) "sphere").1 = default
    ∧ (getMesh exampleGL (withFiles skyIndexFive) "sphere").2._meshes = []
    ∧ (getCubemap exampleGL (withFiles skyIndexFive) "sky" true).map
        (fun result => (result.1, result.2._textures))
      = some (default, []) :=
  have h := failed_lookup_not_cached exampleGL (withFiles skyIndexFive) "sphere"
  have h' := failed_lookup_not_cached exampleGL (withFiles skyIndexFive) "sky"
  ⟨(h.1 (by decide) (Or.inl ⟨by decide, by decide⟩)).1,
   (h.1 (by decide) (Or.inl ⟨by decide, by decide⟩)).2.1,
   by rw [(h'.2 (by decide) (by decide) (by decide) true true).1]; rfl⟩

/-! ## Termination of `getTexture` -/

/-- C13 fails on the code: with an index that holds no image and no mipmap
level of `DEBUG_DEFAULT` (the empty index, or `wallIndex`) and empty caches,
no depth of nested calls makes `getTexture` return for a name that does not
resolve: each call ends in another call of `getTexture("DEBUG_DEFAULT")`. -/
theorem getTexture_without_default_never_returns :
    (∀ (gl : GLUtilities) (depth : Nat) (srgb : Bool),
      getTexture gl depth (withFiles []) "missing" srgb = none)
    ∧ (∀ (gl : GLUtilities) (depth : Nat) (srgb : Bool),
      getTexture gl depth (withFiles []) "DEBUG_DEFAULT" srgb = none)
    ∧ (∀ (gl : GLUtilities) (depth : Nat) (srgb : Bool),
      getTexture gl depth (withFiles wallIndex) "floor" srgb = none) := by
  have hdef := fun gl => getTexture_default_unresolved gl (withFiles [])
    (by decide) (by decide) (by decide)
  have hdef' := fun gl => getTexture_default_unresolved gl (withFiles wallIndex)
    (by decide) (by decide) (by decide)
  refine ⟨?_, hdef, ?_⟩
  · intro gl depth srgb
    cases depth with
    | zero => rfl
    | succ d =>
      rw [getTexture_unresolved_step gl (withFiles []) "missing" srgb d
        (by decide) (by decide) (by decide)]
      exact hdef gl d _
  · intro gl depth srgb
    cases depth with
    | zero => rfl
    | succ d =>
      rw [getTexture_unresolved_step gl (withFiles wallIndex) "floor" srgb d
        (by decide) (by decide) (by decide)]
      exact hdef' gl d _

end PRPViewer
